import Mathlib

/-!
Verification of the manifest package of `go-msi` (`src/manifest/index.go`).

The Go data model and the operations `NeedGuid`, `SetGuids`, `Write`/`Load`
(their JSON (de)serialization core), `Normalize` and `RewriteFilePaths` are
shallowly embedded below.  External collaborators that live outside this
package (the GUID generator `guid.Make`, the semantic-version parser, the
filesystem path resolver) are passed in as explicit parameters or, where a
concrete behaviour is needed, modelled from the specification.
-/

/-- `WixFiles` from `src/manifest/index.go` (json tags: `guid`, `items`,
neither has `omitempty`). -/
structure WixFiles where
  Guid : String
  Items : List String
deriving Repr, DecidableEq

/-- `WixEnv` from `src/manifest/index.go`: one environment-variable record. -/
structure WixEnv where
  Name : String
  Value : String
  Permanent : String
  System : String
  Action : String
  Part : String
deriving Repr, DecidableEq

/-- `WixEnvList` from `src/manifest/index.go` (json tags: `guid`, `vars`,
neither has `omitempty`). -/
structure WixEnvList where
  Guid : String
  Vars : List WixEnv
deriving Repr, DecidableEq

/-- `WixShortcut` from `src/manifest/index.go`: one shortcut record. -/
structure WixShortcut where
  Name : String
  Description : String
  Target : String
  WDir : String
  Arguments : String
  Icon : String
deriving Repr, DecidableEq

/-- `WixShortcuts` from `src/manifest/index.go` (json tags: `guid,omitempty`,
`items,omitempty`). -/
structure WixShortcuts where
  Guid : String
  Items : List WixShortcut
deriving Repr, DecidableEq

/-- `ChocoSpec` from `src/manifest/index.go`.  `MsiFile`, `BuildDir` and
`ChangeLog` carry the json tag `-`: they are never (de)serialized. -/
structure ChocoSpec where
  Id : String
  Title : String
  Authors : String
  Owners : String
  Description : String
  ProjectUrl : String
  Tags : String
  LicenseUrl : String
  IconUrl : String
  RequireLicense : Bool
  MsiFile : String
  BuildDir : String
  ChangeLog : String
deriving Repr, DecidableEq

/-- `WixManifest` from `src/manifest/index.go`.  `VersionOk` and `RelDirs`
carry the json tag `-` (derived only, never (de)serialized). -/
structure WixManifest where
  Product : String
  Company : String
  Version : String
  VersionOk : String
  License : String
  UpgradeCode : String
  Files : WixFiles
  Directories : List String
  RelDirs : List String
  Env : WixEnvList
  Shortcuts : WixShortcuts
  Choco : ChocoSpec
deriving Repr, DecidableEq

/-- The zero value of `WixEnv` (Go zero struct). -/
def WixEnv.zero : WixEnv := ⟨"", "", "", "", "", ""⟩

/-- The zero value of `WixShortcut` (Go zero struct). -/
def WixShortcut.zero : WixShortcut := ⟨"", "", "", "", "", ""⟩

/-- The zero value of `ChocoSpec` (Go zero struct). -/
def ChocoSpec.zero : ChocoSpec :=
  ⟨"", "", "", "", "", "", "", "", "", false, "", "", ""⟩

/-- The zero value of `WixManifest` (Go zero struct), the state of a freshly
allocated manifest before `Load`. -/
def WixManifest.zero : WixManifest :=
  ⟨"", "", "", "", "", "", ⟨"", []⟩, [], [], ⟨"", []⟩, ⟨"", []⟩, ChocoSpec.zero⟩

/-- `NeedGuid` from `src/manifest/index.go` lines 148-163, translated
statement by statement: `need` starts `false` and each of the four checks
may set it to `true`. -/
def NeedGuid (w : WixManifest) : Bool :=
  let need := false
  let need := if w.UpgradeCode = "" then true else need
  let need := if w.Files.Guid = "" then true else need
  let need := if w.Env.Guid = "" ∧ 0 < w.Env.Vars.length then true else need
  let need := if w.Shortcuts.Guid = "" ∧ 0 < w.Shortcuts.Items.length then true else need
  need

/-- Result of a `SetGuids` call: the manifest after the call (the Go method
mutates its receiver), the next unconsumed index into the generator stream,
the returned `updated` boolean, and whether an error was returned.  On error
the Go code returns `false, err`, hence `changed = false` in the error leaves
below. -/
structure SetGuidsOut where
  manifest : WixManifest
  next : Nat
  changed : Bool
  errored : Bool
deriving Repr, DecidableEq

/-- Fourth conditional of `SetGuids` (`index.go` lines 137-143): fill the
shortcuts-section guid when it is empty and the shortcut list is non-empty. -/
def setGuidsShortcutsStep (g : Nat → Option String) (w : WixManifest) (k : Nat)
    (updated : Bool) : SetGuidsOut :=
  if w.Shortcuts.Guid = "" ∧ 0 < w.Shortcuts.Items.length then
    match g k with
    | none => ⟨w, k + 1, false, true⟩
    | some s => ⟨{ w with Shortcuts := { w.Shortcuts with Guid := s } }, k + 1, true, false⟩
  else ⟨w, k, updated, false⟩

/-- Third conditional of `SetGuids` (`index.go` lines 130-136): fill the
environment-section guid when it is empty and the variable list is non-empty. -/
def setGuidsEnvStep (g : Nat → Option String) (w : WixManifest) (k : Nat)
    (updated : Bool) : SetGuidsOut :=
  if w.Env.Guid = "" ∧ 0 < w.Env.Vars.length then
    match g k with
    | none => ⟨w, k + 1, false, true⟩
    | some s =>
        setGuidsShortcutsStep g { w with Env := { w.Env with Guid := s } } (k + 1) true
  else setGuidsShortcutsStep g w k updated

/-- Second conditional of `SetGuids` (`index.go` lines 123-129): fill the
files-section guid when it is empty. -/
def setGuidsFilesStep (g : Nat → Option String) (w : WixManifest) (k : Nat)
    (updated : Bool) : SetGuidsOut :=
  if w.Files.Guid = "" then
    match g k with
    | none => ⟨w, k + 1, false, true⟩
    | some s =>
        setGuidsEnvStep g { w with Files := { w.Files with Guid := s } } (k + 1) true
  else setGuidsEnvStep g w k updated

/-- `SetGuids` from `src/manifest/index.go` lines 113-145.  The GUID
generator `guid.Make` lives outside this package; it is passed in as a
stream `g : Nat → Option String` consumed at successive indices starting at
`k`, where `g i = none` models a generation error (Go then executes
`return false, err`). -/
def SetGuids (g : Nat → Option String) (w : WixManifest) (k : Nat) : SetGuidsOut :=
  if w.UpgradeCode = "" then
    match g k with
    | none => ⟨w, k + 1, false, true⟩
    | some s => setGuidsFilesStep g { w with UpgradeCode := s } (k + 1) true
  else setGuidsFilesStep g w k false

/-- C1: `NeedGuid` returns `false` iff the upgrade code and the files guid are
non-empty, the env guid is non-empty or there are no env vars, and the
shortcuts guid is non-empty or there are no shortcuts.  It is a pure function
of the manifest (it takes the manifest to a `Bool` without producing a new
manifest, so it modifies nothing). -/
theorem needGuid_false_iff (w : WixManifest) :
    NeedGuid w = false ↔
      (w.UpgradeCode ≠ "" ∧ w.Files.Guid ≠ "" ∧
        (w.Env.Guid ≠ "" ∨ w.Env.Vars = []) ∧
        (w.Shortcuts.Guid ≠ "" ∨ w.Shortcuts.Items = [])) := by
  simp only [NeedGuid, List.length_pos]
  by_cases h1 : w.UpgradeCode = "" <;>
    by_cases h2 : w.Files.Guid = "" <;>
      by_cases h3 : w.Env.Guid = "" ∧ w.Env.Vars ≠ [] <;>
        by_cases h4 : w.Shortcuts.Guid = "" ∧ w.Shortcuts.Items ≠ [] <;>
          (simp_all [not_and_or]; try tauto)

/-- A generator that produces one identifier and then fails, exhibiting a
`SetGuids` call that errors after a slot has already been filled. -/
def gOnceThenErr : Nat → Option String := fun n => if n = 0 then some "G1" else none

/-- A generator that never errors and always returns the non-empty token
`"G"`. -/
def gConst : Nat → Option String := fun _ => some "G"

/-- C2 counterexample: with `gOnceThenErr` on the zero manifest, the upgrade
slot is filled (to `"G1"`) before the files slot errors, yet `SetGuids`
returns `changed = false` — refuting the claim that `changed = true` is
returned whenever a slot was filled, including calls that end in a
generation error. -/
theorem setGuids_error_changed_cex :
    (SetGuids gOnceThenErr WixManifest.zero 0).manifest.UpgradeCode = "G1" ∧
    (SetGuids gOnceThenErr WixManifest.zero 0).errored = true ∧
    (SetGuids gOnceThenErr WixManifest.zero 0).changed = false := by
  decide

section SetGuidsLemmas

variable (g : Nat → Option String)

/-- The shortcuts step never touches the upgrade code. -/
lemma scStep_up (w : WixManifest) (k : Nat) (u : Bool) :
    (setGuidsShortcutsStep g w k u).manifest.UpgradeCode = w.UpgradeCode := by
  unfold setGuidsShortcutsStep
  split
  · cases h : g k <;> rfl
  · rfl

/-- The env step never touches the upgrade code. -/
lemma envStep_up (w : WixManifest) (k : Nat) (u : Bool) :
    (setGuidsEnvStep g w k u).manifest.UpgradeCode = w.UpgradeCode := by
  unfold setGuidsEnvStep
  split
  · cases h : g k
    · rfl
    · exact scStep_up g _ _ _
  · exact scStep_up g _ _ _

/-- The files step never touches the upgrade code. -/
lemma filesStep_up (w : WixManifest) (k : Nat) (u : Bool) :
    (setGuidsFilesStep g w k u).manifest.UpgradeCode = w.UpgradeCode := by
  unfold setGuidsFilesStep
  split
  · cases h : g k
    · rfl
    · exact envStep_up g _ _ _
  · exact envStep_up g _ _ _

/-- The shortcuts step never touches the files section. -/
lemma scStep_files (w : WixManifest) (k : Nat) (u : Bool) :
    (setGuidsShortcutsStep g w k u).manifest.Files = w.Files := by
  unfold setGuidsShortcutsStep
  split
  · cases h : g k <;> rfl
  · rfl

/-- The env step never touches the files section. -/
lemma envStep_files (w : WixManifest) (k : Nat) (u : Bool) :
    (setGuidsEnvStep g w k u).manifest.Files = w.Files := by
  unfold setGuidsEnvStep
  split
  · cases h : g k
    · rfl
    · exact scStep_files g _ _ _
  · exact scStep_files g _ _ _

/-- The shortcuts step never touches the env section. -/
lemma scStep_env (w : WixManifest) (k : Nat) (u : Bool) :
    (setGuidsShortcutsStep g w k u).manifest.Env = w.Env := by
  unfold setGuidsShortcutsStep
  split
  · cases h : g k <;> rfl
  · rfl

/-- The env step never touches the shortcut items, and only fills the env
guid when it is empty. -/
lemma envStep_env_ne (w : WixManifest) (k : Nat) (u : Bool) (h : w.Env.Guid ≠ "") :
    (setGuidsEnvStep g w k u).manifest.Env = w.Env := by
  unfold setGuidsEnvStep
  rw [if_neg (by simp [h])]
  exact scStep_env g _ _ _

/-- A files step on a manifest with non-empty files guid leaves the files
section unchanged. -/
lemma filesStep_files_ne (w : WixManifest) (k : Nat) (u : Bool) (h : w.Files.Guid ≠ "") :
    (setGuidsFilesStep g w k u).manifest.Files = w.Files := by
  unfold setGuidsFilesStep
  rw [if_neg h]
  exact envStep_files g _ _ _

/-- A files step never touches the env section when the env guid is
non-empty. -/
lemma filesStep_env_ne (w : WixManifest) (k : Nat) (u : Bool) (h : w.Env.Guid ≠ "") :
    (setGuidsFilesStep g w k u).manifest.Env = w.Env := by
  unfold setGuidsFilesStep
  split
  · cases hg : g k
    · rfl
    · exact envStep_env_ne g _ _ _ h
  · exact envStep_env_ne g _ _ _ h

/-- A shortcuts step on a manifest with non-empty shortcuts guid leaves the
shortcuts section unchanged. -/
lemma scStep_sc_ne (w : WixManifest) (k : Nat) (u : Bool) (h : w.Shortcuts.Guid ≠ "") :
    (setGuidsShortcutsStep g w k u).manifest.Shortcuts = w.Shortcuts := by
  unfold setGuidsShortcutsStep
  rw [if_neg (by simp [h])]

/-- An env step preserves the shortcuts section when the shortcuts guid is
non-empty. -/
lemma envStep_sc_ne (w : WixManifest) (k : Nat) (u : Bool) (h : w.Shortcuts.Guid ≠ "") :
    (setGuidsEnvStep g w k u).manifest.Shortcuts = w.Shortcuts := by
  unfold setGuidsEnvStep
  split
  · cases hg : g k
    · rfl
    · exact scStep_sc_ne g _ _ _ h
  · exact scStep_sc_ne g _ _ _ h

/-- A files step preserves the shortcuts section when the shortcuts guid is
non-empty. -/
lemma filesStep_sc_ne (w : WixManifest) (k : Nat) (u : Bool) (h : w.Shortcuts.Guid ≠ "") :
    (setGuidsFilesStep g w k u).manifest.Shortcuts = w.Shortcuts := by
  unfold setGuidsFilesStep
  split
  · cases hg : g k
    · rfl
    · exact envStep_sc_ne g _ _ _ h
  · exact envStep_sc_ne g _ _ _ h

/-- An erroring shortcuts step returns `changed = false` and leaves the
shortcuts section unchanged. -/
lemma scStep_err (w : WixManifest) (k : Nat) (u : Bool)
    (h : (setGuidsShortcutsStep g w k u).errored = true) :
    (setGuidsShortcutsStep g w k u).changed = false ∧
      (setGuidsShortcutsStep g w k u).manifest.Shortcuts = w.Shortcuts := by
  revert h
  unfold setGuidsShortcutsStep
  split
  · cases hg : g k <;> simp
  · simp

/-- An erroring env step returns `changed = false` and leaves the shortcuts
section unchanged. -/
lemma envStep_err (w : WixManifest) (k : Nat) (u : Bool)
    (h : (setGuidsEnvStep g w k u).errored = true) :
    (setGuidsEnvStep g w k u).changed = false ∧
      (setGuidsEnvStep g w k u).manifest.Shortcuts = w.Shortcuts := by
  revert h
  unfold setGuidsEnvStep
  split
  · cases hg : g k
    · simp
    · exact fun h => scStep_err g _ _ _ h
  · exact fun h => scStep_err g _ _ _ h

/-- An erroring files step returns `changed = false` and leaves the
shortcuts section unchanged. -/
lemma filesStep_err (w : WixManifest) (k : Nat) (u : Bool)
    (h : (setGuidsFilesStep g w k u).errored = true) :
    (setGuidsFilesStep g w k u).changed = false ∧
      (setGuidsFilesStep g w k u).manifest.Shortcuts = w.Shortcuts := by
  revert h
  unfold setGuidsFilesStep
  split
  · cases hg : g k
    · simp
    · exact fun h => envStep_err g _ _ _ h
  · exact fun h => envStep_err g _ _ _ h

/-- An erroring `SetGuids` call returns `changed = false` and leaves the
shortcuts section unchanged. -/
lemma setGuids_err (w : WixManifest) (k : Nat)
    (h : (SetGuids g w k).errored = true) :
    (SetGuids g w k).changed = false ∧
      (SetGuids g w k).manifest.Shortcuts = w.Shortcuts := by
  revert h
  unfold SetGuids
  split
  · cases hg : g k
    · simp
    · exact fun h => filesStep_err g _ _ _ h
  · exact fun h => filesStep_err g _ _ _ h

/-- A non-erroring shortcuts step returns `changed = true` exactly when the
accumulator was already true or the shortcuts slot needed filling. -/
lemma scStep_ok_changed (w : WixManifest) (k : Nat) (u : Bool)
    (h : (setGuidsShortcutsStep g w k u).errored = false) :
    (setGuidsShortcutsStep g w k u).changed =
      (u || decide (w.Shortcuts.Guid = "" ∧ 0 < w.Shortcuts.Items.length)) := by
  revert h
  unfold setGuidsShortcutsStep
  split <;> rename_i hc
  · cases hg : g k <;> simp [hc]
  · simp [hc]

/-- A non-erroring env step returns `changed = true` exactly when the
accumulator was already true or the env or shortcuts slot needed filling. -/
lemma envStep_ok_changed (w : WixManifest) (k : Nat) (u : Bool)
    (h : (setGuidsEnvStep g w k u).errored = false) :
    (setGuidsEnvStep g w k u).changed =
      (u || decide (w.Env.Guid = "" ∧ 0 < w.Env.Vars.length)
         || decide (w.Shortcuts.Guid = "" ∧ 0 < w.Shortcuts.Items.length)) := by
  revert h
  unfold setGuidsEnvStep
  split <;> rename_i hc
  · cases hg : g k
    · simp
    · intro h
      rw [scStep_ok_changed g _ _ _ h]
      simp [hc]
  · intro h
    rw [scStep_ok_changed g _ _ _ h]
    simp [hc]

/-- A non-erroring files step returns `changed = true` exactly when the
accumulator was already true or one of the remaining slots needed filling. -/
lemma filesStep_ok_changed (w : WixManifest) (k : Nat) (u : Bool)
    (h : (setGuidsFilesStep g w k u).errored = false) :
    (setGuidsFilesStep g w k u).changed =
      (u || decide (w.Files.Guid = "")
         || decide (w.Env.Guid = "" ∧ 0 < w.Env.Vars.length)
         || decide (w.Shortcuts.Guid = "" ∧ 0 < w.Shortcuts.Items.length)) := by
  revert h
  unfold setGuidsFilesStep
  split <;> rename_i hc
  · cases hg : g k
    · simp
    · intro h
      rw [envStep_ok_changed g _ _ _ h]
      simp [hc]
  · intro h
    rw [envStep_ok_changed g _ _ _ h]
    simp [hc]

/-- `NeedGuid` as a disjunction of the four slot conditions. -/
lemma needGuid_char (w : WixManifest) :
    NeedGuid w =
      (decide (w.UpgradeCode = "")
        || decide (w.Files.Guid = "")
        || decide (w.Env.Guid = "" ∧ 0 < w.Env.Vars.length)
        || decide (w.Shortcuts.Guid = "" ∧ 0 < w.Shortcuts.Items.length)) := by
  unfold NeedGuid
  by_cases h1 : w.UpgradeCode = "" <;>
    by_cases h2 : w.Files.Guid = "" <;>
      by_cases h3 : w.Env.Guid = "" ∧ 0 < w.Env.Vars.length <;>
        by_cases h4 : w.Shortcuts.Guid = "" ∧ 0 < w.Shortcuts.Items.length <;>
          simp [h1, h2, h3, h4]

/-- A non-erroring `SetGuids` call returns `changed = NeedGuid w`. -/
lemma setGuids_ok_changed (w : WixManifest) (k : Nat)
    (h : (SetGuids g w k).errored = false) :
    (SetGuids g w k).changed = NeedGuid w := by
  rw [needGuid_char]
  revert h
  unfold SetGuids
  split <;> rename_i hc
  · cases hg : g k
    · simp
    · intro h
      rw [filesStep_ok_changed g _ _ _ h]
      simp [hc]
  · intro h
    rw [filesStep_ok_changed g _ _ _ h]
    simp [hc]

end SetGuidsLemmas

/-- C2 amended: a `SetGuids` call that completes without a generation error
returns `changed = true` iff some slot needed filling (`NeedGuid`); a call
that ends in a generation error returns `changed = false` even when an
earlier slot in the same call was already filled (the counterexample run
exhibits such a retained assignment — no rollback), and provisioning of the
slots after the failing one is aborted (in particular the last, shortcuts,
slot is never provisioned by an erroring call); slots holding a non-empty
identifier are never overwritten. -/
theorem setGuids_amended (g : Nat → Option String) (w : WixManifest) (k : Nat) :
    ((SetGuids g w k).errored = false → (SetGuids g w k).changed = NeedGuid w) ∧
    ((SetGuids g w k).errored = true → (SetGuids g w k).changed = false ∧
      (SetGuids g w k).manifest.Shortcuts = w.Shortcuts) ∧
    (w.UpgradeCode ≠ "" → (SetGuids g w k).manifest.UpgradeCode = w.UpgradeCode) ∧
    (w.Files.Guid ≠ "" → (SetGuids g w k).manifest.Files = w.Files) ∧
    (w.Env.Guid ≠ "" → (SetGuids g w k).manifest.Env = w.Env) ∧
    (w.Shortcuts.Guid ≠ "" → (SetGuids g w k).manifest.Shortcuts = w.Shortcuts) := by
  refine ⟨setGuids_ok_changed g w k, setGuids_err g w k, ?_, ?_, ?_, ?_⟩
  · intro h
    unfold SetGuids
    rw [if_neg h]
    exact filesStep_up g _ _ _
  · intro h
    unfold SetGuids
    split
    · cases hg : g k
      · rfl
      · exact filesStep_files_ne g _ _ _ h
    · exact filesStep_files_ne g _ _ _ h
  · intro h
    unfold SetGuids
    split
    · cases hg : g k
      · rfl
      · exact filesStep_env_ne g _ _ _ h
    · exact filesStep_env_ne g _ _ _ h
  · intro h
    unfold SetGuids
    split
    · cases hg : g k
      · rfl
      · exact filesStep_sc_ne g _ _ _ h
    · exact filesStep_sc_ne g _ _ _ h

/-- Modelled from the spec: the GUID generator `guid.Make` lives outside
this package; per §6 it returns a globally-unique token and fails only on
entropy exhaustion.  A generator stream is well-behaved when it never
errors and every token it returns is non-empty. -/
def GoodGen (g : Nat → Option String) : Prop :=
  ∀ n, ∃ s, g n = some s ∧ s ≠ ""

section SetGuidsGoodLemmas

variable (g : Nat → Option String)

/-- With a well-behaved generator the shortcuts step never errors. -/
lemma scStep_good_ok (hg : GoodGen g) (w : WixManifest) (k : Nat) (u : Bool) :
    (setGuidsShortcutsStep g w k u).errored = false := by
  unfold setGuidsShortcutsStep
  split
  · obtain ⟨s, hs, -⟩ := hg k
    rw [hs]
  · rfl

/-- With a well-behaved generator the env step never errors. -/
lemma envStep_good_ok (hg : GoodGen g) (w : WixManifest) (k : Nat) (u : Bool) :
    (setGuidsEnvStep g w k u).errored = false := by
  unfold setGuidsEnvStep
  split
  · obtain ⟨s, hs, -⟩ := hg k
    rw [hs]
    exact scStep_good_ok g hg _ _ _
  · exact scStep_good_ok g hg _ _ _

/-- With a well-behaved generator the files step never errors. -/
lemma filesStep_good_ok (hg : GoodGen g) (w : WixManifest) (k : Nat) (u : Bool) :
    (setGuidsFilesStep g w k u).errored = false := by
  unfold setGuidsFilesStep
  split
  · obtain ⟨s, hs, -⟩ := hg k
    rw [hs]
    exact envStep_good_ok g hg _ _ _
  · exact envStep_good_ok g hg _ _ _

/-- With a well-behaved generator `SetGuids` never errors. -/
lemma setGuids_good_ok (hg : GoodGen g) (w : WixManifest) (k : Nat) :
    (SetGuids g w k).errored = false := by
  unfold SetGuids
  split
  · obtain ⟨s, hs, -⟩ := hg k
    rw [hs]
    exact filesStep_good_ok g hg _ _ _
  · exact filesStep_good_ok g hg _ _ _

/-- After a shortcuts step with a well-behaved generator the shortcuts slot
no longer needs filling. -/
lemma scStep_good_sc (hg : GoodGen g) (w : WixManifest) (k : Nat) (u : Bool) :
    (setGuidsShortcutsStep g w k u).manifest.Shortcuts.Guid ≠ "" ∨
      (setGuidsShortcutsStep g w k u).manifest.Shortcuts.Items = [] := by
  unfold setGuidsShortcutsStep
  split <;> rename_i hc
  · obtain ⟨s, hs, hne⟩ := hg k
    rw [hs]
    exact Or.inl hne
  · rw [not_and_or, List.length_pos] at hc
    rcases hc with hc | hc
    · exact Or.inl hc
    · exact Or.inr (by simpa using hc)

/-- After an env step with a well-behaved generator the shortcuts slot no
longer needs filling. -/
lemma envStep_good_sc (hg : GoodGen g) (w : WixManifest) (k : Nat) (u : Bool) :
    (setGuidsEnvStep g w k u).manifest.Shortcuts.Guid ≠ "" ∨
      (setGuidsEnvStep g w k u).manifest.Shortcuts.Items = [] := by
  unfold setGuidsEnvStep
  split
  · obtain ⟨s, hs, -⟩ := hg k
    rw [hs]
    exact scStep_good_sc g hg _ _ _
  · exact scStep_good_sc g hg _ _ _

/-- After a files step with a well-behaved generator the shortcuts slot no
longer needs filling. -/
lemma filesStep_good_sc (hg : GoodGen g) (w : WixManifest) (k : Nat) (u : Bool) :
    (setGuidsFilesStep g w k u).manifest.Shortcuts.Guid ≠ "" ∨
      (setGuidsFilesStep g w k u).manifest.Shortcuts.Items = [] := by
  unfold setGuidsFilesStep
  split
  · obtain ⟨s, hs, -⟩ := hg k
    rw [hs]
    exact envStep_good_sc g hg _ _ _
  · exact envStep_good_sc g hg _ _ _

/-- After an env step with a well-behaved generator the env slot no longer
needs filling. -/
lemma envStep_good_env (hg : GoodGen g) (w : WixManifest) (k : Nat) (u : Bool) :
    (setGuidsEnvStep g w k u).manifest.Env.Guid ≠ "" ∨
      (setGuidsEnvStep g w k u).manifest.Env.Vars = [] := by
  unfold setGuidsEnvStep
  split <;> rename_i hc
  · obtain ⟨s, hs, hne⟩ := hg k
    rw [hs, scStep_env]
    exact Or.inl hne
  · rw [scStep_env]
    rw [not_and_or, List.length_pos] at hc
    rcases hc with hc | hc
    · exact Or.inl hc
    · exact Or.inr (by simpa using hc)

/-- After a files step with a well-behaved generator the env slot no longer
needs filling. -/
lemma filesStep_good_env (hg : GoodGen g) (w : WixManifest) (k : Nat) (u : Bool) :
    (setGuidsFilesStep g w k u).manifest.Env.Guid ≠ "" ∨
      (setGuidsFilesStep g w k u).manifest.Env.Vars = [] := by
  unfold setGuidsFilesStep
  split
  · obtain ⟨s, hs, -⟩ := hg k
    rw [hs]
    exact envStep_good_env g hg _ _ _
  · exact envStep_good_env g hg _ _ _

/-- After a files step with a well-behaved generator the files guid is
non-empty. -/
lemma filesStep_good_files (hg : GoodGen g) (w : WixManifest) (k : Nat) (u : Bool) :
    (setGuidsFilesStep g w k u).manifest.Files.Guid ≠ "" := by
  unfold setGuidsFilesStep
  split <;> rename_i hc
  · obtain ⟨s, hs, hne⟩ := hg k
    rw [hs, envStep_files]
    exact hne
  · rw [envStep_files]
    exact hc

/-- After `SetGuids` with a well-behaved generator no slot needs filling. -/
lemma needGuid_setGuids_good (hg : GoodGen g) (w : WixManifest) (k : Nat) :
    NeedGuid (SetGuids g w k).manifest = false := by
  have hup : (SetGuids g w k).manifest.UpgradeCode ≠ "" := by
    unfold SetGuids
    split <;> rename_i hc
    · obtain ⟨s, hs, hne⟩ := hg k
      rw [hs, filesStep_up]
      exact hne
    · rw [filesStep_up]
      exact hc
  have hfiles : (SetGuids g w k).manifest.Files.Guid ≠ "" := by
    unfold SetGuids
    split
    · obtain ⟨s, hs, -⟩ := hg k
      rw [hs]
      exact filesStep_good_files g hg _ _ _
    · exact filesStep_good_files g hg _ _ _
  have henv : (SetGuids g w k).manifest.Env.Guid ≠ "" ∨
      (SetGuids g w k).manifest.Env.Vars = [] := by
    unfold SetGuids
    split
    · obtain ⟨s, hs, -⟩ := hg k
      rw [hs]
      exact filesStep_good_env g hg _ _ _
    · exact filesStep_good_env g hg _ _ _
  have hsc : (SetGuids g w k).manifest.Shortcuts.Guid ≠ "" ∨
      (SetGuids g w k).manifest.Shortcuts.Items = [] := by
    unfold SetGuids
    split
    · obtain ⟨s, hs, -⟩ := hg k
      rw [hs]
      exact filesStep_good_sc g hg _ _ _
    · exact filesStep_good_sc g hg _ _ _
  rw [needGuid_char]
  rcases henv with henv | henv <;> rcases hsc with hsc | hsc <;>
    simp [hup, hfiles, henv, hsc]

/-- A `SetGuids` call on a manifest that needs no guids is a no-op returning
`changed = false` and no error. -/
lemma setGuids_noNeed (w : WixManifest) (k : Nat) (h : NeedGuid w = false) :
    SetGuids g w k = ⟨w, k, false, false⟩ := by
  rw [needGuid_char] at h
  simp only [Bool.or_eq_false_iff, decide_eq_false_iff_not] at h
  obtain ⟨⟨⟨h1, h2⟩, h3⟩, h4⟩ := h
  unfold SetGuids setGuidsFilesStep setGuidsEnvStep setGuidsShortcutsStep
  rw [if_neg h1, if_neg h2, if_neg h3, if_neg h4]

end SetGuidsGoodLemmas

/-- C3: with a generator that never errors (and, per the spec, returns
non-empty globally-unique tokens), a second `SetGuids` call on the manifest
produced by a first call returns `changed = false` and leaves the manifest —
in particular all four identifier slots — unchanged. -/
theorem setGuids_second_call_noop (g : Nat → Option String) (w : WixManifest)
    (k k' : Nat) (hg : GoodGen g) :
    (SetGuids g (SetGuids g w k).manifest k').changed = false ∧
    (SetGuids g (SetGuids g w k).manifest k').manifest = (SetGuids g w k).manifest := by
  rw [setGuids_noNeed g _ k' (needGuid_setGuids_good g hg w k)]
  exact ⟨rfl, rfl⟩

/-- C3 witness: the theorem applied to the constant generator `gConst` on
the zero manifest. -/
theorem setGuids_second_call_noop_witness :
    (SetGuids gConst (SetGuids gConst WixManifest.zero 0).manifest 2).changed = false ∧
    (SetGuids gConst (SetGuids gConst WixManifest.zero 0).manifest 2).manifest =
      (SetGuids gConst WixManifest.zero 0).manifest :=
  setGuids_second_call_noop gConst WixManifest.zero 0 2
    (fun _ => ⟨"G", rfl, by decide⟩)

/-- C2 witness: the amended theorem applied at the concrete erroring run of
the counterexample. -/
theorem setGuids_amended_witness :
    (SetGuids gOnceThenErr WixManifest.zero 0).changed = false ∧
    (SetGuids gOnceThenErr WixManifest.zero 0).manifest.Shortcuts =
      WixManifest.zero.Shortcuts :=
  (setGuids_amended gOnceThenErr WixManifest.zero 0).2.1 (by decide)

/-! ## JSON document model

`Write` (`index.go` lines 77-90) serializes the manifest with
`json.MarshalIndent` and writes the bytes to a file; `Load` (lines 94-110)
reads the bytes and calls `json.Unmarshal(dat, &wixFile)` on the receiver.
The file layer is an external collaborator; the document itself is modelled
as a JSON value and the encoders/decoders below follow Go `encoding/json`
semantics for the struct tags in `index.go`: `omitempty` omits empty
strings, empty slices and `false` booleans but has no effect on
struct-typed fields (structs are never "empty" in Go); fields tagged `-`
are never (de)serialized; `Unmarshal` into an existing struct merges —
fields absent from the document keep the value already in the receiver, and
JSON `null` leaves strings and booleans unchanged while it resets slices to
nil. -/

/-- A JSON value. -/
inductive JVal where
  | null
  | bool (b : Bool)
  | str (s : String)
  | arr (xs : List JVal)
  | obj (fields : List (String × JVal))
deriving Repr

/-- An `omitempty` string field: omitted when empty. -/
def omitStr (key s : String) : List (String × JVal) :=
  if s = "" then [] else [(key, JVal.str s)]

/-- An `omitempty` slice field: omitted when empty. -/
def omitArr {α : Type} (key : String) (enc : α → JVal) (xs : List α) :
    List (String × JVal) :=
  match xs with
  | [] => []
  | _ => [(key, JVal.arr (xs.map enc))]

/-- An `omitempty` bool field: omitted when `false`. -/
def omitBool (key : String) (b : Bool) : List (String × JVal) :=
  if b = false then [] else [(key, JVal.bool b)]

/-- A slice field without `omitempty`: a Go nil slice (the zero value)
marshals as `null`, a non-empty one as an array. -/
def marshalList {α : Type} (enc : α → JVal) : List α → JVal
  | [] => JVal.null
  | xs => JVal.arr (xs.map enc)

/-- Encoder for `WixEnv` (all six fields lack `omitempty`). -/
def marshalWixEnv (e : WixEnv) : JVal :=
  JVal.obj [("name", JVal.str e.Name), ("value", JVal.str e.Value),
    ("permanent", JVal.str e.Permanent), ("system", JVal.str e.System),
    ("action", JVal.str e.Action), ("part", JVal.str e.Part)]

/-- Encoder for `WixShortcut` (all six fields lack `omitempty`). -/
def marshalWixShortcut (s : WixShortcut) : JVal :=
  JVal.obj [("name", JVal.str s.Name), ("description", JVal.str s.Description),
    ("target", JVal.str s.Target), ("wdir", JVal.str s.WDir),
    ("arguments", JVal.str s.Arguments), ("icon", JVal.str s.Icon)]

/-- Encoder for `WixFiles` (`guid` and `items` lack `omitempty`). -/
def marshalWixFiles (f : WixFiles) : JVal :=
  JVal.obj [("guid", JVal.str f.Guid), ("items", marshalList JVal.str f.Items)]

/-- Encoder for `WixEnvList` (`guid` and `vars` lack `omitempty`). -/
def marshalWixEnvList (l : WixEnvList) : JVal :=
  JVal.obj [("guid", JVal.str l.Guid), ("vars", marshalList marshalWixEnv l.Vars)]

/-- Encoder for `WixShortcuts` (`guid,omitempty` and `items,omitempty`). -/
def marshalWixShortcuts (s : WixShortcuts) : JVal :=
  JVal.obj (omitStr "guid" s.Guid ++ omitArr "items" marshalWixShortcut s.Items)

/-- Encoder for `ChocoSpec`: all persisted fields carry `omitempty`;
`MsiFile`, `BuildDir` and `ChangeLog` are tagged `-` and never emitted. -/
def marshalChocoSpec (c : ChocoSpec) : JVal :=
  JVal.obj (omitStr "id" c.Id ++ omitStr "title" c.Title ++
    omitStr "authors" c.Authors ++ omitStr "owners" c.Owners ++
    omitStr "description" c.Description ++ omitStr "project-url" c.ProjectUrl ++
    omitStr "tags" c.Tags ++ omitStr "license-url" c.LicenseUrl ++
    omitStr "icon-url" c.IconUrl ++ omitBool "require-license" c.RequireLicense)

/-- The serialization core of `Write` (`index.go` lines 77-90):
`json.MarshalIndent` of the receiver, following the struct tags of
`WixManifest`.  `product`, `company` and `upgrade-code` lack `omitempty`;
`version`, `license` and `directories` are omitted when empty; the
struct-typed `files`, `env`, `shortcuts` and `choco` are always emitted
(Go `omitempty` does not apply to structs); `VersionOk` and `RelDirs` are
tagged `-` and never emitted. -/
def WixManifest.Write (w : WixManifest) : JVal :=
  JVal.obj
    (("product", JVal.str w.Product) ::
      ("company", JVal.str w.Company) ::
      (omitStr "version" w.Version ++
        (omitStr "license" w.License ++
          (("upgrade-code", JVal.str w.UpgradeCode) ::
            ("files", marshalWixFiles w.Files) ::
            (omitArr "directories" JVal.str w.Directories ++
              [("env", marshalWixEnvList w.Env),
                ("shortcuts", marshalWixShortcuts w.Shortcuts),
                ("choco", marshalChocoSpec w.Choco)])))))

/-- Key lookup in a JSON object's field list (first match). -/
def jLookup (key : String) : List (String × JVal) → Option JVal
  | [] => none
  | (k, v) :: rest => if k = key then some v else jLookup key rest

/-- The keys of a JSON object (empty for other values). -/
def jKeys : JVal → List String
  | JVal.obj fs => fs.map Prod.fst
  | _ => []

/-- Decode a string field into prior value `p`: an absent key or JSON
`null` leaves `p` unchanged (Go merge semantics); a non-string value is a
decode error. -/
def decStr (p : String) : Option JVal → Option String
  | none => some p
  | some JVal.null => some p
  | some (JVal.str s) => some s
  | some _ => none

/-- Decode a bool field into prior value `p` (Go merge semantics). -/
def decBool (p : Bool) : Option JVal → Option Bool
  | none => some p
  | some JVal.null => some p
  | some (JVal.bool b) => some b
  | some _ => none

/-- Decode a JSON array's elements as strings (`null` elements decode into
the zero string, as Go leaves fresh elements untouched). -/
def decStrElems : List JVal → Option (List String)
  | [] => some []
  | JVal.str s :: vs =>
      match decStrElems vs with
      | some ss => some (s :: ss)
      | none => none
  | JVal.null :: vs =>
      match decStrElems vs with
      | some ss => some ("" :: ss)
      | none => none
  | _ => none

/-- Decode a string-slice field into prior value `p`: absent keeps `p`,
`null` resets the slice to nil (Go semantics). -/
def decStrList (p : List String) : Option JVal → Option (List String)
  | none => some p
  | some JVal.null => some []
  | some (JVal.arr xs) => decStrElems xs
  | some _ => none

/-- Decoder for `WixEnv`, merging into prior value `p`. -/
def unmarshalWixEnv (p : WixEnv) : JVal → Option WixEnv
  | JVal.null => some p
  | JVal.obj fs => do
      let name ← decStr p.Name (jLookup "name" fs)
      let value ← decStr p.Value (jLookup "value" fs)
      let permanent ← decStr p.Permanent (jLookup "permanent" fs)
      let sys ← decStr p.System (jLookup "system" fs)
      let action ← decStr p.Action (jLookup "action" fs)
      let part ← decStr p.Part (jLookup "part" fs)
      pure ⟨name, value, permanent, sys, action, part⟩
  | _ => none

/-- Decode a JSON array's elements as fresh `WixEnv` records. -/
def decEnvElems : List JVal → Option (List WixEnv)
  | [] => some []
  | v :: vs => do
      let e ← unmarshalWixEnv WixEnv.zero v
      let es ← decEnvElems vs
      pure (e :: es)

/-- Decode an env-list field into prior value `p`. -/
def decEnvList (p : List WixEnv) : Option JVal → Option (List WixEnv)
  | none => some p
  | some JVal.null => some []
  | some (JVal.arr xs) => decEnvElems xs
  | some _ => none

/-- Decoder for `WixShortcut`, merging into prior value `p`. -/
def unmarshalWixShortcut (p : WixShortcut) : JVal → Option WixShortcut
  | JVal.null => some p
  | JVal.obj fs => do
      let name ← decStr p.Name (jLookup "name" fs)
      let description ← decStr p.Description (jLookup "description" fs)
      let target ← decStr p.Target (jLookup "target" fs)
      let wdir ← decStr p.WDir (jLookup "wdir" fs)
      let arguments ← decStr p.Arguments (jLookup "arguments" fs)
      let icon ← decStr p.Icon (jLookup "icon" fs)
      pure ⟨name, description, target, wdir, arguments, icon⟩
  | _ => none

/-- Decode a JSON array's elements as fresh `WixShortcut` records. -/
def decShortcutElems : List JVal → Option (List WixShortcut)
  | [] => some []
  | v :: vs => do
      let s ← unmarshalWixShortcut WixShortcut.zero v
      let ss ← decShortcutElems vs
      pure (s :: ss)

/-- Decode a shortcut-list field into prior value `p`. -/
def decShortcutList (p : List WixShortcut) : Option JVal → Option (List WixShortcut)
  | none => some p
  | some JVal.null => some []
  | some (JVal.arr xs) => decShortcutElems xs
  | some _ => none

/-- Decoder for `WixFiles`, merging into prior value `p`. -/
def unmarshalWixFiles (p : WixFiles) : JVal → Option WixFiles
  | JVal.null => some p
  | JVal.obj fs => do
      let g ← decStr p.Guid (jLookup "guid" fs)
      let items ← decStrList p.Items (jLookup "items" fs)
      pure ⟨g, items⟩
  | _ => none

/-- Decoder for `WixEnvList`, merging into prior value `p`. -/
def unmarshalWixEnvList (p : WixEnvList) : JVal → Option WixEnvList
  | JVal.null => some p
  | JVal.obj fs => do
      let g ← decStr p.Guid (jLookup "guid" fs)
      let vars ← decEnvList p.Vars (jLookup "vars" fs)
      pure ⟨g, vars⟩
  | _ => none

/-- Decoder for `WixShortcuts`, merging into prior value `p`. -/
def unmarshalWixShortcuts (p : WixShortcuts) : JVal → Option WixShortcuts
  | JVal.null => some p
  | JVal.obj fs => do
      let g ← decStr p.Guid (jLookup "guid" fs)
      let items ← decShortcutList p.Items (jLookup "items" fs)
      pure ⟨g, items⟩
  | _ => none

/-- Decoder for `ChocoSpec`, merging into prior value `p`; the fields
tagged `-` (`MsiFile`, `BuildDir`, `ChangeLog`) always keep their prior
values. -/
def unmarshalChocoSpec (p : ChocoSpec) : JVal → Option ChocoSpec
  | JVal.null => some p
  | JVal.obj fs => do
      let id ← decStr p.Id (jLookup "id" fs)
      let title ← decStr p.Title (jLookup "title" fs)
      let authors ← decStr p.Authors (jLookup "authors" fs)
      let owners ← decStr p.Owners (jLookup "owners" fs)
      let description ← decStr p.Description (jLookup "description" fs)
      let projectUrl ← decStr p.ProjectUrl (jLookup "project-url" fs)
      let tags ← decStr p.Tags (jLookup "tags" fs)
      let licenseUrl ← decStr p.LicenseUrl (jLookup "license-url" fs)
      let iconUrl ← decStr p.IconUrl (jLookup "icon-url" fs)
      let requireLicense ← decBool p.RequireLicense (jLookup "require-license" fs)
      pure ⟨id, title, authors, owners, description, projectUrl, tags,
        licenseUrl, iconUrl, requireLicense, p.MsiFile, p.BuildDir, p.ChangeLog⟩
  | _ => none

/-- The deserialization core of `Load` (`index.go` lines 94-110):
`json.Unmarshal(dat, &wixFile)` decodes the document into the receiver `w`,
merging field by field; `VersionOk` and `RelDirs` are tagged `-` and always
keep their prior values.  The file-existence and read errors of `Load` are
external I/O and not modelled. -/
def WixManifest.Load (w : WixManifest) : JVal → Option WixManifest
  | JVal.null => some w
  | JVal.obj fs => do
      let product ← decStr w.Product (jLookup "product" fs)
      let company ← decStr w.Company (jLookup "company" fs)
      let version ← decStr w.Version (jLookup "version" fs)
      let license ← decStr w.License (jLookup "license" fs)
      let upgradeCode ← decStr w.UpgradeCode (jLookup "upgrade-code" fs)
      let files ← (match jLookup "files" fs with
        | none => some w.Files
        | some v => unmarshalWixFiles w.Files v)
      let directories ← decStrList w.Directories (jLookup "directories" fs)
      let env ← (match jLookup "env" fs with
        | none => some w.Env
        | some v => unmarshalWixEnvList w.Env v)
      let shortcuts ← (match jLookup "shortcuts" fs with
        | none => some w.Shortcuts
        | some v => unmarshalWixShortcuts w.Shortcuts v)
      let choco ← (match jLookup "choco" fs with
        | none => some w.Choco
        | some v => unmarshalChocoSpec w.Choco v)
      pure ⟨product, company, version, w.VersionOk, license, upgradeCode,
        files, directories, w.RelDirs, env, shortcuts, choco⟩
  | _ => none

/-- The effect of a round trip on the manifest: every persisted field is
kept, the derived-only fields (`VersionOk`, `RelDirs` and the three
non-persisted `ChocoSpec` fields) come back as their zero values. -/
def clearDerived (w : WixManifest) : WixManifest :=
  { w with
    VersionOk := "",
    RelDirs := [],
    Choco := { w.Choco with MsiFile := "", BuildDir := "", ChangeLog := "" } }

section JsonLemmas

variable {α : Type}

lemma jLookup_nil (key : String) : jLookup key [] = none := rfl

lemma jLookup_cons_eq (key : String) (v : JVal) (rest : List (String × JVal)) :
    jLookup key ((key, v) :: rest) = some v := by
  simp [jLookup]

lemma jLookup_cons_ne (k key : String) (v : JVal) (rest : List (String × JVal))
    (h : k ≠ key) : jLookup key ((k, v) :: rest) = jLookup key rest := by
  simp [jLookup, h]

lemma jLookup_omitStr_self (key s : String) (rest : List (String × JVal)) :
    jLookup key (omitStr key s ++ rest) =
      if s = "" then jLookup key rest else some (JVal.str s) := by
  unfold omitStr
  split <;> simp_all [jLookup]

lemma jLookup_omitStr_ne (k key s : String) (rest : List (String × JVal))
    (h : k ≠ key) : jLookup key (omitStr k s ++ rest) = jLookup key rest := by
  unfold omitStr
  split <;> simp [jLookup, h]

lemma jLookup_omitBool_self (key : String) (b : Bool) (rest : List (String × JVal)) :
    jLookup key (omitBool key b ++ rest) =
      if b = false then jLookup key rest else some (JVal.bool b) := by
  unfold omitBool
  split <;> simp_all [jLookup]

lemma jLookup_omitBool_ne (k key : String) (b : Bool) (rest : List (String × JVal))
    (h : k ≠ key) : jLookup key (omitBool k b ++ rest) = jLookup key rest := by
  unfold omitBool
  split <;> simp [jLookup, h]

lemma jLookup_omitArr_ne (k key : String) (enc : α → JVal) (xs : List α)
    (rest : List (String × JVal)) (h : k ≠ key) :
    jLookup key (omitArr k enc xs ++ rest) = jLookup key rest := by
  unfold omitArr
  cases xs <;> simp [jLookup, h]

lemma jLookup_omitArr_nil (key : String) (enc : α → JVal)
    (rest : List (String × JVal)) :
    jLookup key (omitArr key enc ([] : List α) ++ rest) = jLookup key rest := rfl

lemma jLookup_omitArr_cons (key : String) (enc : α → JVal) (x : α) (xs : List α)
    (rest : List (String × JVal)) :
    jLookup key (omitArr key enc (x :: xs) ++ rest) =
      some (JVal.arr ((x :: xs).map enc)) := by
  simp [omitArr, jLookup]

lemma jLookup_omitStr_self_nil (key s : String) :
    jLookup key (omitStr key s) = if s = "" then none else some (JVal.str s) := by
  unfold omitStr
  split <;> simp_all [jLookup]

lemma jLookup_omitStr_ne_nil (k key s : String) (h : k ≠ key) :
    jLookup key (omitStr k s) = none := by
  unfold omitStr
  split <;> simp [jLookup, h]

lemma jLookup_omitBool_self_nil (key : String) (b : Bool) :
    jLookup key (omitBool key b) = if b = false then none else some (JVal.bool b) := by
  unfold omitBool
  split <;> simp_all [jLookup]

lemma jLookup_omitBool_ne_nil (k key : String) (b : Bool) (h : k ≠ key) :
    jLookup key (omitBool k b) = none := by
  unfold omitBool
  split <;> simp [jLookup, h]

lemma decStr_zero_omit (s : String) :
    decStr "" (if s = "" then none else some (JVal.str s)) = some s := by
  split <;> simp_all [decStr]

lemma decBool_zero_omit (b : Bool) :
    decBool false (if b = false then none else some (JVal.bool b)) = some b := by
  cases b <;> simp [decBool]

lemma decStrElems_map (xs : List String) :
    decStrElems (xs.map JVal.str) = some xs := by
  induction xs with
  | nil => rfl
  | cons x xs ih => simp [decStrElems, ih]

lemma decStrList_marshal (p xs : List String) :
    decStrList p (some (marshalList JVal.str xs)) = some xs := by
  cases xs with
  | nil => rfl
  | cons x xs => simp [marshalList, decStrList, decStrElems, decStrElems_map]

lemma unmarshalWixEnv_marshal (e : WixEnv) :
    unmarshalWixEnv WixEnv.zero (marshalWixEnv e) = some e := by
  simp [marshalWixEnv, unmarshalWixEnv, jLookup, decStr]

lemma decEnvElems_map (vs : List WixEnv) :
    decEnvElems (vs.map marshalWixEnv) = some vs := by
  induction vs with
  | nil => rfl
  | cons v vs ih => simp [decEnvElems, unmarshalWixEnv_marshal, ih]

lemma unmarshalWixEnvList_marshal (l : WixEnvList) :
    unmarshalWixEnvList ⟨"", []⟩ (marshalWixEnvList l) = some l := by
  obtain ⟨g, vars⟩ := l
  cases vars with
  | nil => rfl
  | cons v vs =>
      simp [marshalWixEnvList, unmarshalWixEnvList, jLookup, decStr, marshalList,
        decEnvList, decEnvElems, unmarshalWixEnv_marshal, decEnvElems_map]

lemma unmarshalWixFiles_marshal (f : WixFiles) :
    unmarshalWixFiles ⟨"", []⟩ (marshalWixFiles f) = some f := by
  obtain ⟨g, items⟩ := f
  cases items with
  | nil => rfl
  | cons x xs =>
      simp [marshalWixFiles, unmarshalWixFiles, jLookup, decStr, marshalList,
        decStrList, decStrElems, decStrElems_map]

lemma unmarshalWixShortcut_marshal (s : WixShortcut) :
    unmarshalWixShortcut WixShortcut.zero (marshalWixShortcut s) = some s := by
  simp [marshalWixShortcut, unmarshalWixShortcut, jLookup, decStr]

lemma decShortcutElems_map (ss : List WixShortcut) :
    decShortcutElems (ss.map marshalWixShortcut) = some ss := by
  induction ss with
  | nil => rfl
  | cons s ss ih => simp [decShortcutElems, unmarshalWixShortcut_marshal, ih]

lemma unmarshalWixShortcuts_marshal (s : WixShortcuts) :
    unmarshalWixShortcuts ⟨"", []⟩ (marshalWixShortcuts s) = some s := by
  obtain ⟨g, items⟩ := s
  cases items with
  | nil =>
      by_cases hg : g = "" <;>
        simp [marshalWixShortcuts, unmarshalWixShortcuts, omitStr, omitArr,
          hg, jLookup, decStr, decShortcutList]
  | cons x xs =>
      by_cases hg : g = "" <;>
        simp [marshalWixShortcuts, unmarshalWixShortcuts, omitStr, omitArr,
          hg, jLookup, decStr, decShortcutList, decShortcutElems,
          unmarshalWixShortcut_marshal, decShortcutElems_map]

lemma unmarshalChocoSpec_marshal (c : ChocoSpec) :
    unmarshalChocoSpec ChocoSpec.zero (marshalChocoSpec c) =
      some { c with MsiFile := "", BuildDir := "", ChangeLog := "" } := by
  simp [marshalChocoSpec, unmarshalChocoSpec, jLookup_omitStr_self, jLookup_omitStr_ne,
    jLookup_omitBool_self, jLookup_omitBool_ne, jLookup_omitStr_self_nil,
    jLookup_omitStr_ne_nil, jLookup_omitBool_self_nil, jLookup_omitBool_ne_nil,
    jLookup_nil, decStr_zero_omit, decBool_zero_omit, ChocoSpec.zero]

end JsonLemmas

/-- C4: persisting a manifest with `Write` and restoring it with `Load` into
a fresh (zero) manifest yields the original manifest on every persisted
field; the derived-only fields (`VersionOk`, `RelDirs`, and the
non-persisted `MsiFile`/`BuildDir`/`ChangeLog`) come back as zero values. -/
theorem write_load_roundtrip (w : WixManifest) :
    WixManifest.Load WixManifest.zero (WixManifest.Write w) = some (clearDerived w) := by
  obtain ⟨product, company, version, versionOk, license, upgradeCode, files,
    directories, relDirs, env, shortcuts, choco⟩ := w
  cases directories with
  | nil =>
      by_cases hv : version = "" <;> by_cases hl : license = "" <;>
        simp [WixManifest.Write, WixManifest.Load, WixManifest.zero, clearDerived,
          jLookup_omitStr_self, jLookup_omitStr_ne, jLookup_omitArr_ne,
          jLookup_omitArr_nil, jLookup_cons_eq, jLookup_cons_ne, jLookup_nil,
          hv, hl, decStr, decStrList, unmarshalWixFiles_marshal,
          unmarshalWixEnvList_marshal, unmarshalWixShortcuts_marshal,
          unmarshalChocoSpec_marshal]
  | cons d ds =>
      by_cases hv : version = "" <;> by_cases hl : license = "" <;>
        simp [WixManifest.Write, WixManifest.Load, WixManifest.zero, clearDerived,
          jLookup_omitStr_self, jLookup_omitStr_ne, jLookup_omitArr_ne,
          jLookup_omitArr_nil, jLookup_omitArr_cons, jLookup_cons_eq, jLookup_cons_ne,
          jLookup_nil, hv, hl, decStr, decStrList, decStrElems, decStrElems_map,
          unmarshalWixFiles_marshal, unmarshalWixEnvList_marshal,
          unmarshalWixShortcuts_marshal, unmarshalChocoSpec_marshal]

section KeyLemmas

variable {α : Type}

lemma jKeys_obj (fs : List (String × JVal)) : jKeys (JVal.obj fs) = fs.map Prod.fst := rfl

lemma keys_omitStr (k s : String) :
    (omitStr k s).map Prod.fst = if s = "" then [] else [k] := by
  unfold omitStr
  split <;> rfl

lemma keys_omitBool (k : String) (b : Bool) :
    (omitBool k b).map Prod.fst = if b = false then [] else [k] := by
  unfold omitBool
  split <;> rfl

lemma keys_omitArr [DecidableEq α] (k : String) (enc : α → JVal) (xs : List α) :
    (omitArr k enc xs).map Prod.fst = if xs = [] then [] else [k] := by
  unfold omitArr
  cases xs <;> simp

end KeyLemmas

/-- C6 counterexample: on the zero manifest the files section is empty/zero,
yet the serialized document still contains the `files` key (and likewise
`env`, `shortcuts`, `choco`) — refuting the claim that every empty field
except product, company and upgrade-code is omitted. -/
theorem write_omitempty_cex :
    WixManifest.zero.Files = WixFiles.mk "" [] ∧
    "files" ∈ jKeys (WixManifest.Write WixManifest.zero) ∧
    "env" ∈ jKeys (WixManifest.Write WixManifest.zero) := by
  decide

/-- C6 amended: `Write` omits the string and list fields `version`,
`license` and `directories` when empty, always emits `product`, `company`
and `upgrade-code` even when empty, and always emits the struct-valued
section keys `files`, `env`, `shortcuts` and `choco` even when their
contents are zero (Go `omitempty` has no effect on struct fields); within
the shortcuts and choco sections the `omitempty`-tagged fields are omitted
when empty; the derived-only fields (`VersionOk`, `RelDirs`, and the
non-persisted choco fields) never appear in the document. -/
theorem write_keys_amended (w : WixManifest) :
    jKeys (WixManifest.Write w) =
      "product" :: "company" ::
        ((if w.Version = "" then [] else ["version"]) ++
          ((if w.License = "" then [] else ["license"]) ++
            ("upgrade-code" :: "files" ::
              ((if w.Directories = [] then [] else ["directories"]) ++
                ["env", "shortcuts", "choco"])))) ∧
    jKeys (marshalWixShortcuts w.Shortcuts) =
      ((if w.Shortcuts.Guid = "" then [] else ["guid"]) ++
        (if w.Shortcuts.Items = [] then [] else ["items"])) ∧
    jKeys (marshalChocoSpec w.Choco) =
      ((if w.Choco.Id = "" then [] else ["id"]) ++
        ((if w.Choco.Title = "" then [] else ["title"]) ++
          ((if w.Choco.Authors = "" then [] else ["authors"]) ++
            ((if w.Choco.Owners = "" then [] else ["owners"]) ++
              ((if w.Choco.Description = "" then [] else ["description"]) ++
                ((if w.Choco.ProjectUrl = "" then [] else ["project-url"]) ++
                  ((if w.Choco.Tags = "" then [] else ["tags"]) ++
                    ((if w.Choco.LicenseUrl = "" then [] else ["license-url"]) ++
                      ((if w.Choco.IconUrl = "" then [] else ["icon-url"]) ++
                        (if w.Choco.RequireLicense = false then []
                          else ["require-license"])))))))))) ∧
    "VersionOk" ∉ jKeys (WixManifest.Write w) ∧
    "RelDirs" ∉ jKeys (WixManifest.Write w) := by
  have h1 : jKeys (WixManifest.Write w) =
      "product" :: "company" ::
        ((if w.Version = "" then [] else ["version"]) ++
          ((if w.License = "" then [] else ["license"]) ++
            ("upgrade-code" :: "files" ::
              ((if w.Directories = [] then [] else ["directories"]) ++
                ["env", "shortcuts", "choco"])))) := by
    cases hD : w.Directories <;>
      simp [WixManifest.Write, jKeys_obj, keys_omitStr, keys_omitArr, hD]
  refine ⟨h1, ?_, ?_, ?_, ?_⟩
  · cases hI : w.Shortcuts.Items <;>
      simp [marshalWixShortcuts, jKeys_obj, keys_omitStr, keys_omitArr, hI]
  · simp [marshalChocoSpec, jKeys_obj, keys_omitStr, keys_omitBool]
  · rw [h1]
    by_cases hv : w.Version = "" <;> by_cases hl : w.License = "" <;>
      by_cases hd : w.Directories = [] <;> simp [hv, hl, hd]
  · rw [h1]
    by_cases hv : w.Version = "" <;> by_cases hl : w.License = "" <;>
      by_cases hd : w.Directories = [] <;> simp [hv, hl, hd]

/-- A manifest holding prior in-memory state, used to exhibit the merge
semantics of `Load`. -/
def loadPrior : WixManifest := { WixManifest.zero with Version := "9.9.9" }

/-- C8 counterexample: loading the empty document into a manifest whose
version field is `"9.9.9"` succeeds and leaves the version at `"9.9.9"`,
not its zero value — refuting the claim that absent fields come back zero
regardless of the manifest's in-memory state before the call. -/
theorem load_absent_zero_cex :
    WixManifest.Load loadPrior (JVal.obj []) = some loadPrior ∧
    loadPrior.Version = "9.9.9" := by
  decide

/-- C8 amended: `json.Unmarshal` merges into the receiver, so every field
absent from the document keeps the value the manifest held before the call
(hence equals its zero value exactly when `Load` is invoked on a
zero-valued manifest); the fields tagged `-` (`VersionOk`, `RelDirs`)
always keep their prior values. -/
theorem load_absent_keeps_prior (m : WixManifest) (fs : List (String × JVal))
    (m' : WixManifest) (h : WixManifest.Load m (JVal.obj fs) = some m') :
    m'.VersionOk = m.VersionOk ∧
    m'.RelDirs = m.RelDirs ∧
    (jLookup "product" fs = none → m'.Product = m.Product) ∧
    (jLookup "company" fs = none → m'.Company = m.Company) ∧
    (jLookup "version" fs = none → m'.Version = m.Version) ∧
    (jLookup "license" fs = none → m'.License = m.License) ∧
    (jLookup "upgrade-code" fs = none → m'.UpgradeCode = m.UpgradeCode) ∧
    (jLookup "files" fs = none → m'.Files = m.Files) ∧
    (jLookup "directories" fs = none → m'.Directories = m.Directories) ∧
    (jLookup "env" fs = none → m'.Env = m.Env) ∧
    (jLookup "shortcuts" fs = none → m'.Shortcuts = m.Shortcuts) ∧
    (jLookup "choco" fs = none → m'.Choco = m.Choco) := by
  unfold WixManifest.Load at h
  simp only [bind, Option.bind_eq_some, Option.some.injEq] at h
  obtain ⟨p, hp, q, hq, v, hv, l, hl, u, hu, fi, hfi, dirs, hdirs, e, he,
    sc, hsc, ch, hch, hfin⟩ := h
  simp only [Option.pure_def, Option.some.injEq] at hfin
  subst hfin
  refine ⟨rfl, rfl, ?_, ?_, ?_, ?_, ?_, ?_, ?_, ?_, ?_, ?_⟩ <;> intro habs
  · rw [habs] at hp
    simp [decStr] at hp
    exact hp.symm
  · rw [habs] at hq
    simp [decStr] at hq
    exact hq.symm
  · rw [habs] at hv
    simp [decStr] at hv
    exact hv.symm
  · rw [habs] at hl
    simp [decStr] at hl
    exact hl.symm
  · rw [habs] at hu
    simp [decStr] at hu
    exact hu.symm
  · rw [habs] at hfi
    simp at hfi
    exact hfi.symm
  · rw [habs] at hdirs
    simp [decStrList] at hdirs
    exact hdirs.symm
  · rw [habs] at he
    simp at he
    exact he.symm
  · rw [habs] at hsc
    simp at hsc
    exact hsc.symm
  · rw [habs] at hch
    simp at hch
    exact hch.symm

/-- C8 witness: the amended theorem applied to a document carrying only a
`product` key, loaded into a manifest with prior state. -/
theorem load_absent_keeps_prior_witness :
    WixManifest.Load loadPrior (JVal.obj [("product", JVal.str "P")]) =
      some { loadPrior with Product := "P" } ∧
    ({ loadPrior with Product := "P" } : WixManifest).Version = loadPrior.Version := by
  have h : WixManifest.Load loadPrior (JVal.obj [("product", JVal.str "P")]) =
      some { loadPrior with Product := "P" } := by decide
  exact ⟨h, (load_absent_keeps_prior loadPrior _ _ h).2.2.2.2.1 rfl⟩

/-! ## Version normalization

`Normalize` (`index.go` lines 208-245) parses the version with the external
`Masterminds/semver` library, stores `major.minor.patch` into `VersionOk`,
fills choco defaults from product/company, and appends `" admin"` to the
choco tags.  The semver library is an external collaborator; it is modelled
from the spec below. -/

/-- A parsed semantic version: numeric core plus the pre-release and
build-metadata suffixes. -/
structure SemVer where
  major : Nat
  minor : Nat
  patch : Nat
  pre : String
  build : String
deriving Repr, DecidableEq

/-- Split a character list on a separator character (like Go
`strings.Split`): `n` separators yield `n + 1` groups. -/
def splitOnChar (c : Char) : List Char → List (List Char)
  | [] => [[]]
  | x :: xs =>
    if x = c then [] :: splitOnChar c xs
    else
      match splitOnChar c xs with
      | [] => [[x]]
      | g :: gs => (x :: g) :: gs

/-- Parse a non-empty all-digit character list as a natural number. -/
def digitsToNat (cs : List Char) : Option Nat :=
  if cs ≠ [] ∧ cs.all Char.isDigit then
    some (cs.foldl (fun n c => 10 * n + (c.toNat - 48)) 0)
  else none

/-- Rejoin pre-release groups that were split on a dash. -/
def joinDashes : List (List Char) → List Char
  | [] => []
  | [g] => g
  | g :: gs => g ++ '-' :: joinDashes gs

/-- Parse `major.minor.patch` with an optional `-pre` suffix. -/
def parseCore (build : String) (core : List Char) : Option SemVer :=
  match splitOnChar '-' core with
  | [] => none
  | c :: rest =>
      let pre := joinDashes rest
      if rest ≠ [] ∧ pre = [] then none
      else
        match splitOnChar '.' c with
        | [ma, mi, pa] => do
            let a ← digitsToNat ma
            let b ← digitsToNat mi
            let d ← digitsToNat pa
            pure ⟨a, b, d, String.mk pre, build⟩
        | _ => none

/-- Modelled from the spec: the external semantic-version parser (§6, a
collaborator outside this repository) exposing major/minor/patch accessors;
it accepts `major.minor.patch` optionally followed by a non-empty
pre-release suffix (after `-`) and a non-empty build-metadata suffix
(after `+`) and fails on anything else. -/
def parseSemver (s : String) : Option SemVer :=
  match splitOnChar '+' s.toList with
  | [core] => parseCore "" core
  | [core, b] => if b = [] then none else parseCore (String.mk b) core
  | _ => none

/-- The "choco fix" block of `Normalize` (`index.go` lines 226-242): each
empty metadata field falls back to product/company, then `" admin"` is
appended to the tags. -/
def chocoFix (product company : String) (c : ChocoSpec) : ChocoSpec :=
  let c := if c.Id = "" then { c with Id := product } else c
  let c := if c.Title = "" then { c with Title := product } else c
  let c := if c.Authors = "" then { c with Authors := company } else c
  let c := if c.Owners = "" then { c with Owners := company } else c
  let c := if c.Description = "" then { c with Description := product } else c
  { c with Tags := c.Tags ++ " admin" }

/-- `Normalize` from `src/manifest/index.go` lines 208-245.  The returned
`Bool` is the error flag (Go returns the semver parse error).  Note the
source first executes `wixFile.VersionOk = wixFile.Version` and only then
parses, so a parse failure still leaves `VersionOk` set to the raw version
string. -/
def Normalize (w : WixManifest) : WixManifest × Bool :=
  let w1 := { w with VersionOk := w.Version }
  match parseSemver w.Version with
  | none => (w1, true)
  | some v =>
      let okVersion :=
        toString v.major ++ "." ++ toString v.minor ++ "." ++ toString v.patch
      let w2 := { w1 with VersionOk := okVersion }
      ({ w2 with Choco := chocoFix w2.Product w2.Company w2.Choco }, false)

/-- A zero manifest carrying the given version string. -/
def mkVer (s : String) : WixManifest := { WixManifest.zero with Version := s }

lemma normalize_ok_iff (w : WixManifest) :
    (Normalize w).2 = false ↔ ∃ v, parseSemver w.Version = some v := by
  unfold Normalize
  cases hp : parseSemver w.Version <;> simp [hp]

lemma normalize_version_preserved (w : WixManifest) :
    (Normalize w).1.Version = w.Version := by
  unfold Normalize
  cases hp : parseSemver w.Version <;> rfl

lemma chocoFix_tags (p q : String) (c : ChocoSpec) :
    (chocoFix p q c).Tags = c.Tags ++ " admin" := by
  simp only [chocoFix]
  split <;> split <;> split <;> split <;> split <;> rfl

lemma normalize_tags_eq (w : WixManifest) (v : SemVer)
    (h : parseSemver w.Version = some v) :
    (Normalize w).1.Choco.Tags = w.Choco.Tags ++ " admin" := by
  unfold Normalize
  rw [h]
  exact chocoFix_tags _ _ _

/-- C5: whenever the version string parses as a semantic version,
`Normalize` succeeds, sets the derived `VersionOk` to exactly
`major.minor.patch` (discarding pre-release/build metadata) and preserves
the `Version` field; in particular the inputs `"1.2.3"`,
`"1.2.3-beta+001"` and `"1.2.3-rc1"` all yield derived version
`"1.2.3"`. -/
theorem normalize_version_core (w : WixManifest) (v : SemVer)
    (h : parseSemver w.Version = some v) :
    (Normalize w).2 = false ∧
    (Normalize w).1.VersionOk =
      toString v.major ++ "." ++ toString v.minor ++ "." ++ toString v.patch ∧
    (Normalize w).1.Version = w.Version ∧
    (Normalize (mkVer "1.2.3")).1.VersionOk = "1.2.3" ∧
    (Normalize (mkVer "1.2.3-beta+001")).1.VersionOk = "1.2.3" ∧
    (Normalize (mkVer "1.2.3-rc1")).1.VersionOk = "1.2.3" := by
  refine ⟨?_, ?_, normalize_version_preserved w, by decide, by decide, by decide⟩
  · unfold Normalize
    rw [h]
  · unfold Normalize
    rw [h]

/-- C5 witness: the theorem applied at the concrete input
`"1.2.3-beta+001"`. -/
theorem normalize_version_core_witness :
    parseSemver (mkVer "1.2.3-beta+001").Version = some ⟨1, 2, 3, "beta", "001"⟩ ∧
    (Normalize (mkVer "1.2.3-beta+001")).1.VersionOk =
      toString (1 : Nat) ++ "." ++ toString (2 : Nat) ++ "." ++ toString (3 : Nat) := by
  have h : parseSemver (mkVer "1.2.3-beta+001").Version =
      some ⟨1, 2, 3, "beta", "001"⟩ := by decide
  exact ⟨h, (normalize_version_core _ _ h).2.1⟩

/-- A manifest whose version string does not parse as a semantic version. -/
def badVersionManifest : WixManifest := { WixManifest.zero with Version := "abc" }

/-- C7 counterexample: on a manifest with unparseable version `"abc"` and
empty derived version, `Normalize` fails but mutates the derived
normalized-version field to `"abc"` (line 215 runs before the parse), so the
manifest is not left completely unchanged. -/
theorem normalize_fail_mutates_cex :
    (Normalize badVersionManifest).2 = true ∧
    badVersionManifest.VersionOk = "" ∧
    (Normalize badVersionManifest).1.VersionOk = "abc" := by
  decide

/-- C7 amended: when `Normalize` fails because the version string does not
parse, it returns a `VersionFormatError` and the only mutation is the
derived normalized-version field, which is set to the raw version string;
every other field is unchanged — so `Normalize` also partially mutates on
failure, alongside `ProvisionIdentifiers` and `RelativizePaths`. -/
theorem normalize_fail_amended (w : WixManifest) (h : parseSemver w.Version = none) :
    (Normalize w).2 = true ∧
    (Normalize w).1 = { w with VersionOk := w.Version } := by
  unfold Normalize
  rw [h]
  exact ⟨rfl, rfl⟩

/-- C7 witness: the amended theorem applied at the concrete failing
manifest. -/
theorem normalize_fail_amended_witness :
    (Normalize badVersionManifest).2 = true ∧
    (Normalize badVersionManifest).1 =
      { badVersionManifest with VersionOk := "abc" } := by
  have h : parseSemver badVersionManifest.Version = none := by decide
  exact ⟨(normalize_fail_amended badVersionManifest h).1,
    (normalize_fail_amended badVersionManifest h).2⟩

/-- C9: every `Normalize` call that returns without error appends the fixed
token `" admin"` to the choco tag string, and a second call on the result
succeeds and appends it again — the operation is not idempotent on the tag
string. -/
theorem normalize_tags_append (w : WixManifest) (h : (Normalize w).2 = false) :
    (Normalize w).1.Choco.Tags = w.Choco.Tags ++ " admin" ∧
    (Normalize (Normalize w).1).2 = false ∧
    (Normalize (Normalize w).1).1.Choco.Tags = w.Choco.Tags ++ " admin" ++ " admin" := by
  obtain ⟨v, hv⟩ := (normalize_ok_iff w).1 h
  have h2 : parseSemver (Normalize w).1.Version = some v := by
    rw [normalize_version_preserved]
    exact hv
  refine ⟨normalize_tags_eq w v hv, (normalize_ok_iff _).2 ⟨v, h2⟩, ?_⟩
  rw [normalize_tags_eq _ v h2, normalize_tags_eq w v hv]

/-- C9 witness: the theorem applied to a manifest with version `"1.2.3"`
and empty initial tags. -/
theorem normalize_tags_append_witness :
    (Normalize (mkVer "1.2.3")).1.Choco.Tags = "" ++ " admin" ∧
    (Normalize (Normalize (mkVer "1.2.3")).1).2 = false ∧
    (Normalize (Normalize (mkVer "1.2.3")).1).1.Choco.Tags =
      "" ++ " admin" ++ " admin" :=
  normalize_tags_append (mkVer "1.2.3") (by decide)

/-! ## Path relativization

`RewriteFilePaths` (`index.go` lines 167-203) resolves each path with
`filepath.Abs` (relative to the process working directory) and rewrites it
relative to `out` with `filepath.Rel`.  Both are filesystem collaborators
(§6) and are passed in as parameters `abs` and `rel`; the model gives the
result of a call, `none` when any resolution step fails. -/

/-- The per-list loop of `RewriteFilePaths`: `filepath.Abs` then
`filepath.Rel out` on every entry. -/
def rewriteStrList (abs : String → Option String)
    (rel : String → String → Option String) (out : String) :
    List String → Option (List String)
  | [] => some []
  | f :: fs => do
      let a ← abs f
      let r ← rel out a
      let rest ← rewriteStrList abs rel out fs
      pure (r :: rest)

/-- The shortcut loop of `RewriteFilePaths` (`index.go` lines 190-201):
icons are rewritten in place, empty icons are skipped. -/
def rewriteShortcutIcons (abs : String → Option String)
    (rel : String → String → Option String) (out : String) :
    List WixShortcut → Option (List WixShortcut)
  | [] => some []
  | s :: ss => do
      let s2 ← if s.Icon = "" then some s
        else do
          let a ← abs s.Icon
          let r ← rel out a
          pure { s with Icon := r }
      let rest ← rewriteShortcutIcons abs rel out ss
      pure (s2 :: rest)

/-- `RewriteFilePaths` from `src/manifest/index.go` lines 167-203: file
items are rewritten in place, each directory's relativization is appended
to the derived `RelDirs` list (`Directories` itself is untouched), and
shortcut icons are rewritten in place.  The model returns the manifest of a
completed call (`none` on a resolution failure). -/
def RewriteFilePaths (abs : String → Option String)
    (rel : String → String → Option String) (out : String) (w : WixManifest) :
    Option WixManifest := do
  let items ← rewriteStrList abs rel out w.Files.Items
  let rds ← rewriteStrList abs rel out w.Directories
  let scs ← rewriteShortcutIcons abs rel out w.Shortcuts.Items
  pure { w with
    Files := { w.Files with Items := items },
    RelDirs := w.RelDirs ++ rds,
    Shortcuts := { w.Shortcuts with Items := scs } }

lemma rewriteStrList_length (a : String → Option String)
    (r : String → String → Option String) (o : String) :
    ∀ xs ys : List String, rewriteStrList a r o xs = some ys → ys.length = xs.length := by
  intro xs
  induction xs with
  | nil =>
      intro ys h
      simp only [rewriteStrList, Option.some.injEq] at h
      subst h
      rfl
  | cons x xs ih =>
      intro ys h
      simp only [rewriteStrList, bind, Option.bind_eq_some, Option.pure_def,
        Option.some.injEq] at h
      obtain ⟨aV, ha, rV, hr, rest, hrest, hys⟩ := h
      subst hys
      simp [ih rest hrest]

/-- C10: a successful `RewriteFilePaths` call leaves `Directories`
unchanged and appends exactly one relativized entry per directory to the
derived `RelDirs` list without clearing it; two successive successful calls
therefore leave `RelDirs` holding the relativized entry of every directory
twice. -/
theorem rewriteFilePaths_reldirs (abs : String → Option String)
    (rel : String → String → Option String) (out : String) (w w1 w2 : WixManifest)
    (h1 : RewriteFilePaths abs rel out w = some w1)
    (h2 : RewriteFilePaths abs rel out w1 = some w2) :
    w1.Directories = w.Directories ∧ w2.Directories = w.Directories ∧
    ∃ rds, rewriteStrList abs rel out w.Directories = some rds ∧
      rds.length = w.Directories.length ∧
      w1.RelDirs = w.RelDirs ++ rds ∧
      w2.RelDirs = w.RelDirs ++ rds ++ rds := by
  unfold RewriteFilePaths at h1 h2
  simp only [bind, Option.bind_eq_some, Option.pure_def, Option.some.injEq] at h1 h2
  obtain ⟨items, hitems, rds, hrds, scs, hscs, hw1⟩ := h1
  subst hw1
  obtain ⟨items2, hitems2, rds2, hrds2, scs2, hscs2, hw2⟩ := h2
  subst hw2
  have hsame : rds2 = rds := by
    have h := hrds.symm.trans hrds2
    exact (Option.some.inj h).symm
  subst hsame
  exact ⟨rfl, rfl, rds2, hrds, rewriteStrList_length abs rel out _ _ hrds, rfl, rfl⟩

/-- The identity absolute-path resolver, for the witness run. -/
def absId : String → Option String := fun s => some s

/-- A relativizer that returns the path unchanged, for the witness run. -/
def relDrop : String → String → Option String := fun _ p => some p

/-- A zero manifest with one directory. -/
def wDir : WixManifest := { WixManifest.zero with Directories := ["d"] }

/-- `wDir` after one successful `RewriteFilePaths` call. -/
def wDir1 : WixManifest := { wDir with RelDirs := ["d"] }

/-- `wDir` after two successful `RewriteFilePaths` calls. -/
def wDir2 : WixManifest := { wDir with RelDirs := ["d", "d"] }

/-- C10 witness: the theorem applied to two concrete successful calls. -/
theorem rewriteFilePaths_reldirs_witness :
    wDir1.Directories = wDir.Directories ∧ wDir2.Directories = wDir.Directories ∧
    ∃ rds, rewriteStrList absId relDrop "out" wDir.Directories = some rds ∧
      rds.length = wDir.Directories.length ∧
      wDir1.RelDirs = wDir.RelDirs ++ rds ∧
      wDir2.RelDirs = wDir.RelDirs ++ rds ++ rds :=
  rewriteFilePaths_reldirs absId relDrop "out" wDir wDir1 wDir2 (by decide) (by decide)
